import Mathlib

/-!
Verification of `src/careamics_restoration/config/algorithm.py`.

The module declares three string-backed enumerations (`Losses`, `Models`,
`MaskingStrategies`) and two pydantic models (`ModelParameters`, `Algorithm`).
This file embeds the declarations and the validation behaviour that pydantic
v2 gives them:

* a model is constructed from raw field values; absent optional fields are
  filled with their declared defaults, and default values are not re-validated
  (`validate_default` is left at `False`);
* `Field(ge=..., le=...)` bounds and the custom `field_validator`
  `num_filter_base_must_even` run on every explicitly supplied value; each
  failed check produces one error item carrying the field location, a message
  and the offending input, and all items are collected into a single
  validation error;
* for a single field the checks short-circuit: the even-check of
  `num_filter_base_must_even` runs before the minimum-check, and only the
  first failure is reported for that field;
* `model_config = ConfigDict(use_enum_values=True, ...)` applies while a
  supplied `loss` / `model` / `masking_strategy` value is validated, storing
  the enum's underlying string; an omitted `masking_strategy` keeps its
  unvalidated default, which is the `MaskingStrategies.DEFAULT` member
  itself — an enum handle that subclasses `str` and equals `"default"`
  under Python `==`. The embedded object's `String` fields record the
  str-level content (the quotient Python `==` observes), and
  `storedMaskingStrategy` records the handle-vs-plain-string representation;
* neither model sets `frozen=True` or `validate_assignment=True` in its
  configuration, so pydantic's defaults (`False`) apply to attribute
  assignment after construction.

Python `float` fields only ever meet the exact decimal constants
`0.1`, `0.2`, `20`, and the claim inputs `0.05`, `20.5`; all are binary- and
rational-representable comparisons, so the field is embedded as `Rat`.
Python's `%` on integers agrees with `Int.emod` for a positive modulus.
-/

/-- One entry of a pydantic validation error: the field location, the error
message, and a rendering of the offending input value. -/
structure ValidationErrorItem where
  loc : List String
  msg : String
  input : String
deriving DecidableEq

/-- The `Losses` enumeration: available loss functions (currently only
Noise2Void). -/
inductive Losses where
  | N2V
deriving DecidableEq

/-- Underlying string of a `Losses` member (`Losses.N2V = "n2v"`). -/
def Losses.value : Losses → String
  | .N2V => "n2v"

/-- Lookup of a `Losses` member by its value, as `Losses(raw)` does. -/
def Losses.fromValue (s : String) : Option Losses :=
  if s = "n2v" then some Losses.N2V else none

/-- The `Models` enumeration: available models (currently only U-Net). -/
inductive Models where
  | UNET
deriving DecidableEq

/-- Underlying string of a `Models` member (`Models.UNET = "UNet"`). -/
def Models.value : Models → String
  | .UNET => "UNet"

/-- Lookup of a `Models` member by its value. -/
def Models.fromValue (s : String) : Option Models :=
  if s = "UNet" then some Models.UNET else none

/-- The `MaskingStrategies` enumeration: available masking strategies
(currently only the default Noise2Void masking). -/
inductive MaskingStrategies where
  | DEFAULT
deriving DecidableEq

/-- Underlying string of a `MaskingStrategies` member
(`MaskingStrategies.DEFAULT = "default"`). -/
def MaskingStrategies.value : MaskingStrategies → String
  | .DEFAULT => "default"

/-- Lookup of a `MaskingStrategies` member by its value. -/
def MaskingStrategies.fromValue (s : String) : Option MaskingStrategies :=
  if s = "default" then some MaskingStrategies.DEFAULT else none

/-- A validated `ModelParameters` object: `depth` and `num_filters_base`. -/
structure ModelParameters where
  depth : Int
  num_filters_base : Int
deriving DecidableEq

/-- Raw input fields for `ModelParameters`; `none` means the field was not
supplied and its declared default is used. -/
structure RawModelParameters where
  depth : Option Int
  num_filters_base : Option Int
deriving DecidableEq

/-- Embeds the validator `ModelParameters.num_filter_base_must_even`: reject
odd values, then values below 8, and otherwise return the value unchanged.
The two messages are the exact f-string literals of the source (the first one
reads "must even", without "be"). -/
def num_filter_base_must_even (num_filters : Int) : Except String Int :=
  if num_filters % 2 ≠ 0 then
    .error ("Number of filters (base) must even (got " ++ toString num_filters ++ ").")
  else if num_filters < 8 then
    .error ("Number of filters (base) must be at least 8 (got " ++ toString num_filters ++ ").")
  else
    .ok num_filters

/-- Error items produced for the `depth` field, declared
`Field(default=2, ge=1, le=10)`. A supplied value is checked against both
bounds; an absent field takes the default without validation
(`validate_default` is not enabled). Messages are pydantic's standard
`greater_than_equal` / `less_than_equal` messages. -/
def depthFieldErrors : Option Int → List ValidationErrorItem
  | none => []
  | some d =>
    (if d < 1 then
      [⟨["depth"], "Input should be greater than or equal to 1", toString d⟩]
     else []) ++
    (if 10 < d then
      [⟨["depth"], "Input should be less than or equal to 10", toString d⟩]
     else [])

/-- Error items produced for the `num_filters_base` field: a supplied value
goes through `num_filter_base_must_even`, and a raised `ValueError` becomes
one error item for the field; an absent field takes the default `96` without
validation. -/
def numFiltersFieldErrors : Option Int → List ValidationErrorItem
  | none => []
  | some n =>
    match num_filter_base_must_even n with
    | .ok _ => []
    | .error msg => [⟨["num_filters_base"], msg, toString n⟩]

/-- Embeds construction of `ModelParameters`: collect the error items of both
fields in declaration order; if none, the object is built from the supplied
values and the declared defaults (`depth=2`, `num_filters_base=96`). -/
def mkModelParameters (raw : RawModelParameters) : Except (List ValidationErrorItem) ModelParameters :=
  if depthFieldErrors raw.depth ++ numFiltersFieldErrors raw.num_filters_base = [] then
    .ok ⟨raw.depth.getD 2, raw.num_filters_base.getD 96⟩
  else
    .error (depthFieldErrors raw.depth ++ numFiltersFieldErrors raw.num_filters_base)

/-- The error item reported for an odd `num_filters_base`. -/
def evenErrItem (n : Int) : ValidationErrorItem :=
  ⟨["num_filters_base"], "Number of filters (base) must even (got " ++ toString n ++ ").", toString n⟩

/-- The error item reported for an even `num_filters_base` below 8. -/
def minErrItem (n : Int) : ValidationErrorItem :=
  ⟨["num_filters_base"], "Number of filters (base) must be at least 8 (got " ++ toString n ++ ").", toString n⟩

/-- A validated `Algorithm` object, up to Python `==`. The `loss`, `model`
and `masking_strategy` fields record the str-level content of the stored
values: a validated enum value is stored as its underlying string
(`use_enum_values=True`), and the single unvalidated case — the
`masking_strategy` default, which pydantic keeps as the
`MaskingStrategies.DEFAULT` member — subclasses `str` and equals
`"default"` under Python `==`. Whether that stored object is a plain
string or the enum member (handle) is modelled by `storedMaskingStrategy`,
which structural equality here deliberately does not see, because Python
`==` identifies the member with its value. -/
structure Algorithm where
  loss : String
  model : String
  is_3D : Bool
  masking_strategy : String
  masked_pixel_percentage : Rat
  model_parameters : ModelParameters
deriving DecidableEq

/-- Raw input fields for `Algorithm`: the three mandatory fields, and the
optional fields where `none` means the field was not supplied. -/
structure RawAlgorithm where
  loss : String
  model : String
  is_3D : Bool
  masking_strategy : Option String
  masked_pixel_percentage : Option Rat
  model_parameters : Option RawModelParameters
deriving DecidableEq

/-- Error item for the `loss: Losses` field: a value outside the closed
variant set is rejected with pydantic's enum-membership message, which lists
the allowed values, and the error carries the offending input. -/
def lossFieldErrors (s : String) : List ValidationErrorItem :=
  if (Losses.fromValue s).isSome then []
  else [⟨["loss"], "Input should be 'n2v'", s⟩]

/-- Error item for the `model: Models` field, as for `loss`. -/
def modelFieldErrors (s : String) : List ValidationErrorItem :=
  if (Models.fromValue s).isSome then []
  else [⟨["model"], "Input should be 'UNet'", s⟩]

/-- Error item for `masking_strategy: MaskingStrategies`; an absent field
takes the default member without validation. -/
def maskingFieldErrors : Option String → List ValidationErrorItem
  | none => []
  | some s =>
    if (MaskingStrategies.fromValue s).isSome then []
    else [⟨["masking_strategy"], "Input should be 'default'", s⟩]

/-- Error items for `masked_pixel_percentage`, declared
`Field(default=0.2, ge=0.1, le=20)`; an absent field takes the default
without validation. -/
def mppFieldErrors : Option Rat → List ValidationErrorItem
  | none => []
  | some v =>
    (if v < 0.1 then
      [⟨["masked_pixel_percentage"], "Input should be greater than or equal to 0.1", toString v⟩]
     else []) ++
    (if 20 < v then
      [⟨["masked_pixel_percentage"], "Input should be less than or equal to 20", toString v⟩]
     else [])

/-- Error items for the nested `model_parameters` field: a supplied nested
object is validated recursively by the `ModelParameters` rules and its error
locations are prefixed with the field name; an absent field takes the default
`ModelParameters()` (itself built by the validated constructor from the
declared defaults). -/
def modelParametersFieldErrors : Option RawModelParameters → List ValidationErrorItem
  | none => []
  | some r =>
    match mkModelParameters r with
    | .ok _ => []
    | .error e => e.map (fun i => ⟨"model_parameters" :: i.loc, i.msg, i.input⟩)

/-- All error items of an `Algorithm` construction, in field declaration
order. -/
def algorithmFieldErrors (raw : RawAlgorithm) : List ValidationErrorItem :=
  lossFieldErrors raw.loss ++ modelFieldErrors raw.model ++
    maskingFieldErrors raw.masking_strategy ++
    mppFieldErrors raw.masked_pixel_percentage ++
    modelParametersFieldErrors raw.model_parameters

/-- The `model_parameters` value of a successfully validated `Algorithm`:
the declared default `ModelParameters()` (depth 2, 96 filters) when absent,
otherwise the nested object's fields with their own defaults filled in. -/
def resolveModelParameters : Option RawModelParameters → ModelParameters
  | none => ⟨2, 96⟩
  | some r => ⟨r.depth.getD 2, r.num_filters_base.getD 96⟩

/-- The `Algorithm` value produced when validation reports no error:
supplied values, with declared defaults for absent optional fields. For an
omitted `masking_strategy` this records the str-level value of the default
member (what Python `==` observes); whether the stored object is that
member (an enum handle) or a plain string is modelled separately by
`storedMaskingStrategy`. -/
def resolveAlgorithm (raw : RawAlgorithm) : Algorithm :=
  ⟨raw.loss, raw.model, raw.is_3D,
    raw.masking_strategy.getD MaskingStrategies.DEFAULT.value,
    raw.masked_pixel_percentage.getD 0.2,
    resolveModelParameters raw.model_parameters⟩

/-- Embeds construction of `Algorithm`: collect every field's error items in
declaration order; construct the object only if there is none. -/
def mkAlgorithm (raw : RawAlgorithm) : Except (List ValidationErrorItem) Algorithm :=
  if algorithmFieldErrors raw = [] then .ok (resolveAlgorithm raw)
  else .error (algorithmFieldErrors raw)

/-- Plain-field representation of a validated `ModelParameters`
(`model_dump()`): every field explicit. -/
def ModelParameters.dumpRaw (p : ModelParameters) : RawModelParameters :=
  ⟨some p.depth, some p.num_filters_base⟩

/-- Plain-field representation of a validated `Algorithm` (`model_dump()`):
every field explicit, enums as their strings, the nested object as its own
plain fields. -/
def Algorithm.dumpRaw (a : Algorithm) : RawAlgorithm :=
  ⟨a.loss, a.model, a.is_3D, some a.masking_strategy,
    some a.masked_pixel_percentage, some a.model_parameters.dumpRaw⟩

/-- The pydantic model-configuration switches relevant here. -/
structure ConfigDict where
  use_enum_values : Bool
  frozen : Bool
  validate_assignment : Bool
deriving DecidableEq

/-- `Algorithm.model_config = ConfigDict(use_enum_values=True,
protected_namespaces=())`: `frozen` and `validate_assignment` are left at
pydantic's default `False`. -/
def algorithmModelConfig : ConfigDict := ⟨true, false, false⟩

/-- `ModelParameters` declares no `model_config`, so all switches take
pydantic's defaults (`False`). -/
def modelParametersModelConfig : ConfigDict := ⟨false, false, false⟩

/-- Embeds attribute assignment `a.masked_pixel_percentage = v` on a
constructed `Algorithm` per pydantic semantics: rejected only when the model
is frozen; otherwise the field is replaced, and with `validate_assignment`
left `False` no validator runs on the new value. -/
def Algorithm.setMaskedPixelPercentage (a : Algorithm) (v : Rat) : Except String Algorithm :=
  if algorithmModelConfig.frozen then
    .error "Instance is frozen"
  else
    .ok ⟨a.loss, a.model, a.is_3D, a.masking_strategy, v, a.model_parameters⟩

/-- Embeds attribute assignment `p.num_filters_base = n` on a constructed
`ModelParameters`, as in `Algorithm.setMaskedPixelPercentage`. -/
def ModelParameters.setNumFiltersBase (p : ModelParameters) (n : Int) : Except String ModelParameters :=
  if modelParametersModelConfig.frozen then
    .error "Instance is frozen"
  else
    .ok ⟨p.depth, n⟩

/-- The minimal raw input of the spec's default-construction property:
only `loss`, `model` and `is_3D` supplied. -/
def defaultRawAlgorithm : RawAlgorithm :=
  ⟨"n2v", "UNet", false, none, none, none⟩

/-- The object that minimal input yields: all optional fields at their
declared defaults. -/
def defaultAlgorithm : Algorithm :=
  ⟨"n2v", "UNet", false, "default", 0.2, ⟨2, 96⟩⟩

/-- A raw input supplying every optional field except
`masked_pixel_percentage`, used to exercise the round-trip. -/
def sampleRawAlgorithm : RawAlgorithm :=
  ⟨"n2v", "UNet", true, some "default", none, some ⟨some 3, some 16⟩⟩

/-- The validated object for `sampleRawAlgorithm`. -/
def sampleAlgorithm : Algorithm :=
  ⟨"n2v", "UNet", true, "default", 0.2, ⟨3, 16⟩⟩

/-- The object a constructed `Algorithm` actually holds in its
`masking_strategy` attribute: either a plain `str`, or a
`MaskingStrategies` member — an enum handle, which subclasses `str`. -/
inductive StoredMaskingValue where
  | str (s : String)
  | member (m : MaskingStrategies)
deriving DecidableEq

/-- The str-level content of a stored value: what Python `==` against a
plain string observes (an enum member subclasses `str` with its underlying
value). -/
def StoredMaskingValue.strValue : StoredMaskingValue → String
  | .str s => s
  | .member m => m.value

/-- Modelled from pydantic v2 semantics of the source's declarations:
`use_enum_values=True` applies while a supplied value is validated, so the
member looked up for it is stored as its underlying plain string (for these
single-member enumerations a valid supplied string is exactly that value);
an omitted `masking_strategy` keeps the declared default unvalidated
(`validate_default` is not enabled), so the constructed object stores the
`MaskingStrategies.DEFAULT` member itself, not a plain string. Meaningful
for inputs on which construction succeeds. -/
def storedMaskingStrategy : Option String → StoredMaskingValue
  | none => .member MaskingStrategies.DEFAULT
  | some s => .str s

lemma ite_singleton_eq_nil_iff {α : Type} (c : Prop) [Decidable c] (x : α) :
    ((if c then [x] else []) = []) ↔ ¬ c := by
  split <;> simp_all

lemma num_filter_base_must_even_odd {n : Int} (h : n % 2 ≠ 0) :
    num_filter_base_must_even n = .error (evenErrItem n).msg := by
  simp [num_filter_base_must_even, evenErrItem, h]

lemma num_filter_base_must_even_small {n : Int} (h : n % 2 = 0) (h8 : n < 8) :
    num_filter_base_must_even n = .error (minErrItem n).msg := by
  simp [num_filter_base_must_even, minErrItem, h, h8]

lemma num_filter_base_must_even_valid {n : Int} (h : n % 2 = 0) (h8 : 8 ≤ n) :
    num_filter_base_must_even n = .ok n := by
  simp [num_filter_base_must_even, h]
  omega

lemma numFiltersFieldErrors_some_eq_nil {n : Int} :
    numFiltersFieldErrors (some n) = [] ↔ (n % 2 = 0 ∧ 8 ≤ n) := by
  constructor
  · intro h
    by_cases h1 : n % 2 = 0
    · by_cases h2 : 8 ≤ n
      · exact ⟨h1, h2⟩
      · rw [numFiltersFieldErrors, num_filter_base_must_even_small h1 (by omega)] at h
        simp at h
    · rw [numFiltersFieldErrors, num_filter_base_must_even_odd h1] at h
      simp at h
  · intro ⟨h1, h2⟩
    rw [numFiltersFieldErrors, num_filter_base_must_even_valid h1 h2]

lemma depthFieldErrors_some_eq_nil {d : Int} :
    depthFieldErrors (some d) = [] ↔ (1 ≤ d ∧ d ≤ 10) := by
  rw [depthFieldErrors, List.append_eq_nil, ite_singleton_eq_nil_iff, ite_singleton_eq_nil_iff]
  omega

lemma mkModelParameters_ok_iff {raw : RawModelParameters} {p : ModelParameters} :
    mkModelParameters raw = .ok p ↔
      (depthFieldErrors raw.depth = [] ∧ numFiltersFieldErrors raw.num_filters_base = [] ∧
        p = ⟨raw.depth.getD 2, raw.num_filters_base.getD 96⟩) := by
  rw [mkModelParameters]
  by_cases h : depthFieldErrors raw.depth ++ numFiltersFieldErrors raw.num_filters_base = []
  · rw [List.append_eq_nil] at h
    simp [h.1, h.2, eq_comm]
  · rw [if_neg h]
    simp only [List.append_eq_nil] at h
    simp only [reduceCtorEq, false_iff]
    intro ⟨h1, h2, _⟩
    exact h ⟨h1, h2⟩

lemma mkModelParameters_nfb_error {n : Int} (e : ValidationErrorItem)
    (h : num_filter_base_must_even n = .error e.msg)
    (hl : e.loc = ["num_filters_base"]) (hi : e.input = toString n) :
    mkModelParameters ⟨none, some n⟩ = .error [e] := by
  have hn : numFiltersFieldErrors (some n) = [e] := by
    rw [numFiltersFieldErrors, h]
    cases e
    simp_all
  rw [mkModelParameters]
  simp [depthFieldErrors, hn]

lemma lossFieldErrors_eq_nil {s : String} : lossFieldErrors s = [] ↔ s = "n2v" := by
  by_cases h : s = "n2v" <;> simp [lossFieldErrors, Losses.fromValue, h]

lemma modelFieldErrors_eq_nil {s : String} : modelFieldErrors s = [] ↔ s = "UNet" := by
  by_cases h : s = "UNet" <;> simp [modelFieldErrors, Models.fromValue, h]

lemma maskingFieldErrors_some_eq_nil {s : String} :
    maskingFieldErrors (some s) = [] ↔ s = "default" := by
  by_cases h : s = "default" <;> simp [maskingFieldErrors, MaskingStrategies.fromValue, h]

lemma mppFieldErrors_some_eq_nil {v : Rat} :
    mppFieldErrors (some v) = [] ↔ (0.1 ≤ v ∧ v ≤ 20) := by
  simp [mppFieldErrors, List.append_eq_nil, ite_singleton_eq_nil_iff, not_lt]

lemma mkModelParameters_error_ne_nil {raw : RawModelParameters} {e : List ValidationErrorItem}
    (h : mkModelParameters raw = .error e) : e ≠ [] := by
  rw [mkModelParameters] at h
  by_cases hc : depthFieldErrors raw.depth ++ numFiltersFieldErrors raw.num_filters_base = []
  · simp [hc] at h
  · rw [if_neg hc] at h
    simp only [Except.error.injEq] at h
    rw [← h]
    exact hc

lemma modelParametersFieldErrors_some_eq_nil {r : RawModelParameters} :
    modelParametersFieldErrors (some r) = [] ↔
      mkModelParameters r = .ok ⟨r.depth.getD 2, r.num_filters_base.getD 96⟩ := by
  simp only [modelParametersFieldErrors]
  cases h : mkModelParameters r with
  | ok p =>
    rcases mkModelParameters_ok_iff.mp h with ⟨-, -, h3⟩
    simp [h3]
  | error e =>
    have he := mkModelParameters_error_ne_nil h
    simp [he]

lemma mkAlgorithm_ok_iff {raw : RawAlgorithm} {a : Algorithm} :
    mkAlgorithm raw = .ok a ↔ (algorithmFieldErrors raw = [] ∧ a = resolveAlgorithm raw) := by
  rw [mkAlgorithm]
  by_cases h : algorithmFieldErrors raw = []
  · simp [h, eq_comm]
  · simp [h]

lemma algorithmFieldErrors_eq_nil {raw : RawAlgorithm} :
    algorithmFieldErrors raw = [] ↔
      (lossFieldErrors raw.loss = [] ∧ modelFieldErrors raw.model = [] ∧
       maskingFieldErrors raw.masking_strategy = [] ∧
       mppFieldErrors raw.masked_pixel_percentage = [] ∧
       modelParametersFieldErrors raw.model_parameters = []) := by
  simp [algorithmFieldErrors, List.append_eq_nil, and_assoc]

/-- C1 counterexample: supplying `num_filters_base = 7` (odd) makes
construction fail, but the reported message is
"Number of filters (base) must even (got 7)." — which is not the message
"must be even, got 7" stated in the claim, nor does the claimed text occur
inside it. -/
theorem C1_even_message_counterexample :
    mkModelParameters ⟨none, some 7⟩ = .error [evenErrItem 7] ∧
    (evenErrItem 7).msg = "Number of filters (base) must even (got 7)." ∧
    (evenErrItem 7).msg ≠ "must be even, got 7" ∧
    ¬ ("must be even, got 7".toList <:+: (evenErrItem 7).msg.toList) :=
  ⟨rfl, rfl, by decide, by decide⟩

/-- C1 (amended): for every supplied `num_filters_base` value, construction
of `ModelParameters` succeeds iff the value is even and at least 8; when it
is odd, construction fails with the single message
"Number of filters (base) must even (got {value})."; when it is even but
below 8, construction fails with the single message
"Number of filters (base) must be at least 8 (got {value})." -/
theorem C1_success_iff_even_and_min8 (n : Int) :
    ((∃ p, mkModelParameters ⟨none, some n⟩ = .ok p) ↔ (n % 2 = 0 ∧ 8 ≤ n)) ∧
    (n % 2 ≠ 0 → mkModelParameters ⟨none, some n⟩ = .error [evenErrItem n]) ∧
    (n % 2 = 0 → n < 8 → mkModelParameters ⟨none, some n⟩ = .error [minErrItem n]) := by
  refine ⟨⟨?_, ?_⟩, ?_, ?_⟩
  · rintro ⟨p, hp⟩
    rcases mkModelParameters_ok_iff.mp hp with ⟨-, h2, -⟩
    exact numFiltersFieldErrors_some_eq_nil.mp h2
  · rintro ⟨h1, h2⟩
    exact ⟨_, mkModelParameters_ok_iff.mpr
      ⟨rfl, numFiltersFieldErrors_some_eq_nil.mpr ⟨h1, h2⟩, rfl⟩⟩
  · intro h
    exact mkModelParameters_nfb_error _ (num_filter_base_must_even_odd h) rfl rfl
  · intro h1 h2
    exact mkModelParameters_nfb_error _ (num_filter_base_must_even_small h1 h2) rfl rfl

/-- C2: the checks of `num_filter_base_must_even` run in the fixed order
even-check then minimum-check, and only the first failing rule is reported:
a value violating both rules (odd and below 8) reports only the even-check
message, and a value violating only the minimum (even, below 8) reports only
the minimum-check message. -/
theorem C2_first_failing_rule_only (n m : Int)
    (hn : n % 2 ≠ 0) (_hn8 : n < 8) (hm : m % 2 = 0) (hm8 : m < 8) :
    mkModelParameters ⟨none, some n⟩ = .error [evenErrItem n] ∧
    mkModelParameters ⟨none, some m⟩ = .error [minErrItem m] :=
  ⟨mkModelParameters_nfb_error _ (num_filter_base_must_even_odd hn) rfl rfl,
   mkModelParameters_nfb_error _ (num_filter_base_must_even_small hm hm8) rfl rfl⟩

/-- C2 witness at the claim's own inputs 7 and 6. -/
theorem C2_first_failing_rule_only_witness :
    ((7 : Int) % 2 ≠ 0 ∧ (7 : Int) < 8 ∧ (6 : Int) % 2 = 0 ∧ (6 : Int) < 8) ∧
    (mkModelParameters ⟨none, some 7⟩ = .error [evenErrItem 7] ∧
     mkModelParameters ⟨none, some 6⟩ = .error [minErrItem 6]) :=
  ⟨by decide, C2_first_failing_rule_only 7 6 (by decide) (by decide) (by decide) (by decide)⟩

/-- C3: constructing an `Algorithm` supplying only `loss="n2v"`,
`model="UNet"`, `is_3D=false` succeeds and yields the object with
`masking_strategy="default"`, `masked_pixel_percentage=0.2` and
`model_parameters` of depth 2 and 96 base filters. -/
theorem C3_default_construction :
    mkAlgorithm defaultRawAlgorithm = .ok defaultAlgorithm ∧
    defaultAlgorithm.masking_strategy = "default" ∧
    defaultAlgorithm.masked_pixel_percentage = 0.2 ∧
    defaultAlgorithm.model_parameters = ⟨2, 96⟩ :=
  ⟨rfl, rfl, rfl, rfl⟩

lemma mkModelParameters_revalidate {raw : RawModelParameters} {p : ModelParameters}
    (h : mkModelParameters raw = .ok p) :
    mkModelParameters p.dumpRaw = .ok p := by
  rcases mkModelParameters_ok_iff.mp h with ⟨h1, h2, h3⟩
  subst h3
  apply mkModelParameters_ok_iff.mpr
  refine ⟨?_, ?_, rfl⟩
  · cases hd : raw.depth with
    | none => rfl
    | some d => rw [hd] at h1; exact h1
  · cases hn : raw.num_filters_base with
    | none => rfl
    | some n => rw [hn] at h2; exact h2

/-- C4: serializing a validated `Algorithm` to its plain-field representation
and reconstructing from those fields succeeds and yields the identical
object, so validating an already-valid object is a no-op. -/
theorem C4_roundtrip (raw : RawAlgorithm) (a : Algorithm)
    (h : mkAlgorithm raw = .ok a) :
    mkAlgorithm a.dumpRaw = .ok a := by
  rcases mkAlgorithm_ok_iff.mp h with ⟨he, ha⟩
  rcases algorithmFieldErrors_eq_nil.mp he with ⟨h1, h2, h3, h4, h5⟩
  subst ha
  apply mkAlgorithm_ok_iff.mpr
  refine ⟨algorithmFieldErrors_eq_nil.mpr ⟨h1, h2, ?_, ?_, ?_⟩, rfl⟩
  · show maskingFieldErrors (some (raw.masking_strategy.getD MaskingStrategies.DEFAULT.value)) = []
    cases hm : raw.masking_strategy with
    | none => decide
    | some s =>
      rw [hm] at h3
      have hs := maskingFieldErrors_some_eq_nil.mp h3
      simpa [hs] using h3
  · show mppFieldErrors (some (raw.masked_pixel_percentage.getD 0.2)) = []
    cases hv : raw.masked_pixel_percentage with
    | none =>
      apply mppFieldErrors_some_eq_nil.mpr
      constructor <;> norm_num
    | some v =>
      rw [hv] at h4
      simpa using h4
  · show modelParametersFieldErrors (some (resolveModelParameters raw.model_parameters).dumpRaw) = []
    cases hp : raw.model_parameters with
    | none => decide
    | some r =>
      rw [hp] at h5
      have hr := modelParametersFieldErrors_some_eq_nil.mp h5
      apply modelParametersFieldErrors_some_eq_nil.mpr
      have := mkModelParameters_revalidate hr
      simpa [resolveModelParameters, ModelParameters.dumpRaw] using this

/-- C4 witness: a validated object built from explicit fields round-trips to
itself through its plain-field representation. -/
theorem C4_roundtrip_witness :
    mkAlgorithm sampleRawAlgorithm = .ok sampleAlgorithm ∧
    mkAlgorithm sampleAlgorithm.dumpRaw = .ok sampleAlgorithm :=
  ⟨rfl, C4_roundtrip sampleRawAlgorithm sampleAlgorithm rfl⟩

/-- C5: every `loss` value outside the closed variant set makes `Algorithm`
construction fail with a single enum-membership error for the `loss` field:
its message lists the allowed set ('n2v') and its input is the offending
value. -/
theorem C5_invalid_loss_rejected (s : String) (h : s ≠ "n2v") :
    mkAlgorithm ⟨s, "UNet", false, none, none, none⟩ =
      .error [⟨["loss"], "Input should be 'n2v'", s⟩] := by
  have he : algorithmFieldErrors ⟨s, "UNet", false, none, none, none⟩ =
      [⟨["loss"], "Input should be 'n2v'", s⟩] := by
    simp [algorithmFieldErrors, lossFieldErrors, Losses.fromValue, h,
      modelFieldErrors, Models.fromValue, maskingFieldErrors, mppFieldErrors,
      modelParametersFieldErrors]
  rw [mkAlgorithm, he]
  simp

/-- C5 witness at the claim's own input "invalidloss". -/
theorem C5_invalid_loss_rejected_witness :
    ("invalidloss" ≠ "n2v") ∧
    mkAlgorithm ⟨"invalidloss", "UNet", false, none, none, none⟩ =
      .error [⟨["loss"], "Input should be 'n2v'", "invalidloss"⟩] :=
  ⟨by decide, C5_invalid_loss_rejected "invalidloss" (by decide)⟩

/-- C6: every depth in the closed interval [1, 10] is accepted (the other
field defaulted), while depth 0 and depth 11 are rejected with a range error
naming the `depth` field and carrying the offending value. -/
theorem C6_depth_range (d : Int) (h1 : 1 ≤ d) (h2 : d ≤ 10) :
    mkModelParameters ⟨some d, none⟩ = .ok ⟨d, 96⟩ ∧
    mkModelParameters ⟨some 0, none⟩ =
      .error [⟨["depth"], "Input should be greater than or equal to 1", "0"⟩] ∧
    mkModelParameters ⟨some 11, none⟩ =
      .error [⟨["depth"], "Input should be less than or equal to 10", "11"⟩] :=
  ⟨mkModelParameters_ok_iff.mpr ⟨depthFieldErrors_some_eq_nil.mpr ⟨h1, h2⟩, rfl, rfl⟩,
   rfl, rfl⟩

/-- C6 witness at depth 5. -/
theorem C6_depth_range_witness :
    ((1 : Int) ≤ 5 ∧ (5 : Int) ≤ 10) ∧
    (mkModelParameters ⟨some 5, none⟩ = .ok ⟨5, 96⟩ ∧
     mkModelParameters ⟨some 0, none⟩ =
       .error [⟨["depth"], "Input should be greater than or equal to 1", "0"⟩] ∧
     mkModelParameters ⟨some 11, none⟩ =
       .error [⟨["depth"], "Input should be less than or equal to 10", "11"⟩]) :=
  ⟨by decide, C6_depth_range 5 (by decide) (by decide)⟩

lemma rat_pt1_le_pt2 : (0.1 : Rat) ≤ 0.2 := by norm_num

lemma rat_pt2_le_20 : (0.2 : Rat) ≤ 20 := by norm_num

/-- C7: every `masked_pixel_percentage` in the closed interval [0.1, 20] is
accepted (other fields valid), while 0.05 and 20.5 are rejected with a range
error on the field. -/
theorem C7_mpp_range (v : Rat) (h1 : 0.1 ≤ v) (h2 : v ≤ 20) :
    mkAlgorithm ⟨"n2v", "UNet", false, none, some v, none⟩ =
      .ok ⟨"n2v", "UNet", false, "default", v, ⟨2, 96⟩⟩ ∧
    mkAlgorithm ⟨"n2v", "UNet", false, none, some 0.05, none⟩ =
      .error [⟨["masked_pixel_percentage"], "Input should be greater than or equal to 0.1",
        toString (0.05 : Rat)⟩] ∧
    mkAlgorithm ⟨"n2v", "UNet", false, none, some 20.5, none⟩ =
      .error [⟨["masked_pixel_percentage"], "Input should be less than or equal to 20",
        toString (20.5 : Rat)⟩] := by
  refine ⟨?_, ?_, ?_⟩
  · apply mkAlgorithm_ok_iff.mpr
    refine ⟨algorithmFieldErrors_eq_nil.mpr ⟨rfl, rfl, rfl, ?_, rfl⟩, rfl⟩
    exact mppFieldErrors_some_eq_nil.mpr ⟨h1, h2⟩
  · have hmpp : mppFieldErrors (some 0.05) =
        [⟨["masked_pixel_percentage"], "Input should be greater than or equal to 0.1",
          toString (0.05 : Rat)⟩] := by
      have ha : (0.05 : Rat) < 0.1 := by norm_num
      have hb : ¬ ((20 : Rat) < 0.05) := by norm_num
      simp [mppFieldErrors, ha, hb]
    have he : algorithmFieldErrors ⟨"n2v", "UNet", false, none, some 0.05, none⟩ =
        [⟨["masked_pixel_percentage"], "Input should be greater than or equal to 0.1",
          toString (0.05 : Rat)⟩] := by
      rw [algorithmFieldErrors]
      rw [hmpp]
      rfl
    rw [mkAlgorithm, he]
    simp
  · have hmpp : mppFieldErrors (some 20.5) =
        [⟨["masked_pixel_percentage"], "Input should be less than or equal to 20",
          toString (20.5 : Rat)⟩] := by
      have ha : ¬ ((20.5 : Rat) < 0.1) := by norm_num
      have hb : (20 : Rat) < 20.5 := by norm_num
      simp [mppFieldErrors, ha, hb]
    have he : algorithmFieldErrors ⟨"n2v", "UNet", false, none, some 20.5, none⟩ =
        [⟨["masked_pixel_percentage"], "Input should be less than or equal to 20",
          toString (20.5 : Rat)⟩] := by
      rw [algorithmFieldErrors]
      rw [hmpp]
      rfl
    rw [mkAlgorithm, he]
    simp

/-- C7 witness at the default value 0.2. -/
theorem C7_mpp_range_witness :
    ((0.1 : Rat) ≤ 0.2 ∧ (0.2 : Rat) ≤ 20) ∧
    (mkAlgorithm ⟨"n2v", "UNet", false, none, some 0.2, none⟩ =
      .ok ⟨"n2v", "UNet", false, "default", 0.2, ⟨2, 96⟩⟩ ∧
    mkAlgorithm ⟨"n2v", "UNet", false, none, some 0.05, none⟩ =
      .error [⟨["masked_pixel_percentage"], "Input should be greater than or equal to 0.1",
        toString (0.05 : Rat)⟩] ∧
    mkAlgorithm ⟨"n2v", "UNet", false, none, some 20.5, none⟩ =
      .error [⟨["masked_pixel_percentage"], "Input should be less than or equal to 20",
        toString (20.5 : Rat)⟩]) :=
  ⟨⟨rat_pt1_le_pt2, rat_pt2_le_20⟩, C7_mpp_range 0.2 rat_pt1_le_pt2 rat_pt2_le_20⟩

lemma mkModelParameters_ok_invariants {raw : RawModelParameters} {p : ModelParameters}
    (h : mkModelParameters raw = .ok p) :
    1 ≤ p.depth ∧ p.depth ≤ 10 ∧ p.num_filters_base % 2 = 0 ∧ 8 ≤ p.num_filters_base := by
  rcases mkModelParameters_ok_iff.mp h with ⟨h1, h2, h3⟩
  subst h3
  refine ⟨?_, ?_, ?_, ?_⟩
  · cases hd : raw.depth with
    | none => show (1 : Int) ≤ 2; decide
    | some d =>
      rw [hd] at h1
      exact (depthFieldErrors_some_eq_nil.mp h1).1
  · cases hd : raw.depth with
    | none => show (2 : Int) ≤ 10; decide
    | some d =>
      rw [hd] at h1
      exact (depthFieldErrors_some_eq_nil.mp h1).2
  · cases hn : raw.num_filters_base with
    | none => show (96 : Int) % 2 = 0; decide
    | some n =>
      rw [hn] at h2
      exact (numFiltersFieldErrors_some_eq_nil.mp h2).1
  · cases hn : raw.num_filters_base with
    | none => show (8 : Int) ≤ 96; decide
    | some n =>
      rw [hn] at h2
      exact (numFiltersFieldErrors_some_eq_nil.mp h2).2

/-- C8: every successfully constructed `Algorithm`, including one built with
`model_parameters` omitted, has a `model_parameters` value satisfying all
`ModelParameters` invariants: depth in [1, 10], `num_filters_base` even and
at least 8. -/
theorem C8_nested_default_validated (raw : RawAlgorithm) (a : Algorithm)
    (h : mkAlgorithm raw = .ok a) :
    1 ≤ a.model_parameters.depth ∧ a.model_parameters.depth ≤ 10 ∧
    a.model_parameters.num_filters_base % 2 = 0 ∧
    8 ≤ a.model_parameters.num_filters_base := by
  rcases mkAlgorithm_ok_iff.mp h with ⟨he, ha⟩
  rcases algorithmFieldErrors_eq_nil.mp he with ⟨-, -, -, -, h5⟩
  subst ha
  simp only [resolveAlgorithm]
  cases hp : raw.model_parameters with
  | none => decide
  | some r =>
    rw [hp] at h5
    exact mkModelParameters_ok_invariants (modelParametersFieldErrors_some_eq_nil.mp h5)

/-- C8 witness on the default path: `model_parameters` omitted. -/
theorem C8_nested_default_validated_witness :
    mkAlgorithm defaultRawAlgorithm = .ok defaultAlgorithm ∧
    (1 ≤ defaultAlgorithm.model_parameters.depth ∧
     defaultAlgorithm.model_parameters.depth ≤ 10 ∧
     defaultAlgorithm.model_parameters.num_filters_base % 2 = 0 ∧
     8 ≤ defaultAlgorithm.model_parameters.num_filters_base) :=
  ⟨rfl, C8_nested_default_validated defaultRawAlgorithm defaultAlgorithm rfl⟩

/-- C9 counterexample: the claim fails on the default-construction path.
With `masking_strategy` omitted, construction succeeds, but pydantic keeps
the unvalidated default, so the stored value is the
`MaskingStrategies.DEFAULT` member itself — an enum handle, not a plain
string (`use_enum_values` only applies during validation of supplied
values) — even though its str-level value is still "default". -/
theorem C9_default_stores_handle_counterexample :
    mkAlgorithm defaultRawAlgorithm = .ok defaultAlgorithm ∧
    storedMaskingStrategy defaultRawAlgorithm.masking_strategy =
      .member MaskingStrategies.DEFAULT ∧
    (∀ s : String, storedMaskingStrategy defaultRawAlgorithm.masking_strategy ≠
      StoredMaskingValue.str s) ∧
    (storedMaskingStrategy defaultRawAlgorithm.masking_strategy).strValue = "default" := by
  refine ⟨rfl, rfl, ?_, rfl⟩
  intro s h
  exact StoredMaskingValue.noConfusion h

/-- C9 (amended): in every successfully constructed `Algorithm`, the stored
`loss` and `model` values, and any explicitly supplied `masking_strategy`
value, are the enums' underlying string representations; but when
`masking_strategy` is omitted, the stored value is the unvalidated default
`MaskingStrategies.DEFAULT` member itself — the enum handle — whose
str-level value is still the object's `masking_strategy` string
"default". -/
theorem C9_enum_values_stored_amended (raw : RawAlgorithm) (a : Algorithm)
    (h : mkAlgorithm raw = .ok a) :
    (∃ l : Losses, a.loss = Losses.value l) ∧
    (∃ m : Models, a.model = Models.value m) ∧
    (storedMaskingStrategy raw.masking_strategy).strValue = a.masking_strategy ∧
    (∀ s, raw.masking_strategy = some s →
      storedMaskingStrategy raw.masking_strategy = .str a.masking_strategy) ∧
    (raw.masking_strategy = none →
      storedMaskingStrategy raw.masking_strategy = .member MaskingStrategies.DEFAULT) := by
  rcases mkAlgorithm_ok_iff.mp h with ⟨he, ha⟩
  rcases algorithmFieldErrors_eq_nil.mp he with ⟨h1, h2, -, -, -⟩
  subst ha
  simp only [resolveAlgorithm]
  refine ⟨⟨Losses.N2V, ?_⟩, ⟨Models.UNET, ?_⟩, ?_, ?_, ?_⟩
  · exact lossFieldErrors_eq_nil.mp h1
  · exact modelFieldErrors_eq_nil.mp h2
  · cases hm : raw.masking_strategy with
    | none => rfl
    | some s => rfl
  · intro s hs
    rw [hs]
    rfl
  · intro h0
    rw [h0]
    rfl

/-- C9 witness: a construction with `masking_strategy` explicitly supplied,
on which the stored value is the plain string. -/
theorem C9_enum_values_stored_amended_witness :
    mkAlgorithm sampleRawAlgorithm = .ok sampleAlgorithm ∧
    ((∃ l : Losses, sampleAlgorithm.loss = Losses.value l) ∧
     (∃ m : Models, sampleAlgorithm.model = Models.value m) ∧
     (storedMaskingStrategy sampleRawAlgorithm.masking_strategy).strValue =
       sampleAlgorithm.masking_strategy ∧
     (∀ s, sampleRawAlgorithm.masking_strategy = some s →
       storedMaskingStrategy sampleRawAlgorithm.masking_strategy =
         .str sampleAlgorithm.masking_strategy) ∧
     (sampleRawAlgorithm.masking_strategy = none →
       storedMaskingStrategy sampleRawAlgorithm.masking_strategy =
         .member MaskingStrategies.DEFAULT)) :=
  ⟨rfl, C9_enum_values_stored_amended sampleRawAlgorithm sampleAlgorithm rfl⟩

/-- C10 counterexample: a validly constructed `Algorithm` is not immutable.
Assigning 100 to `masked_pixel_percentage` after construction succeeds (no
model sets `frozen=True`), changes the field, and installs a value that
violates the construction-time range 0.1 ≤ v ≤ 20. -/
theorem C10_mutability_counterexample :
    mkAlgorithm defaultRawAlgorithm = .ok defaultAlgorithm ∧
    defaultAlgorithm.setMaskedPixelPercentage 100 =
      .ok ⟨"n2v", "UNet", false, "default", 100, ⟨2, 96⟩⟩ ∧
    (⟨"n2v", "UNet", false, "default", 100, ⟨2, 96⟩⟩ : Algorithm).masked_pixel_percentage ≠
      defaultAlgorithm.masked_pixel_percentage ∧
    ¬ ((100 : Rat) ≤ 20) :=
  ⟨rfl, rfl, by norm_num [defaultAlgorithm], by norm_num⟩

/-- C10 (amended): constructed `ModelParameters` and `Algorithm` objects are
mutable: neither model configuration sets `frozen`, so pydantic's default
applies and any field assignment after construction succeeds, for any value
and without re-validation; the invariants are guaranteed at construction
time only. -/
theorem C10_assignment_always_succeeds (a : Algorithm) (p : ModelParameters)
    (v : Rat) (n : Int) :
    algorithmModelConfig.frozen = false ∧
    modelParametersModelConfig.frozen = false ∧
    a.setMaskedPixelPercentage v =
      .ok ⟨a.loss, a.model, a.is_3D, a.masking_strategy, v, a.model_parameters⟩ ∧
    p.setNumFiltersBase n = .ok ⟨p.depth, n⟩ :=
  ⟨rfl, rfl, rfl, rfl⟩
